import Mathlib

/-!
Verification of the prefix layer of the metrics-util crate
(src/metrics-util/src/layers/prefix.rs).

The decorator `Prefix<R>` wraps an inner recorder and a fixed prefix text,
rewrites every metric identifier to `prefix ++ "." ++ name`, and forwards each
operation to the inner recorder otherwise unchanged. `PrefixLayer` is the
factory that captures the prefix and builds `Prefix` decorators.

Side effects of the abstract recorder interface are modelled by explicit state
passing: each operation takes a state and returns the new state (together with
the returned handle for the register operations). The counter, gauge and
histogram handles and the attribute objects are opaque type parameters.
-/

/-- Modelled from the spec: a MetricKey (metrics::Key, not under src/) is a
text name plus a collection of label pairs (text to text); identity for
registration purposes is name plus labels. -/
structure Key where
  name : String
  labels : List (String × String)
deriving DecidableEq

/-- Modelled from the spec: a MetricKeyName (metrics::KeyName, not under
src/) is a bare text identifier with no labels, used by the
attribute-setting operations. -/
abbrev KeyName := String

/-- Modelled from the spec: metrics::Key::from_parts (not under src/) builds a
key from a name and a label collection, both taken as given. -/
def Key.from_parts (name : String) (labels : List (String × String)) : Key :=
  { name := name, labels := labels }

/-- Modelled from the spec: metrics::Key::from_name (not under src/) builds a
key purely from a name, with an empty label collection. -/
def Key.from_name (name : String) : Key :=
  Key.from_parts name []

/-- Modelled from the spec: the abstract metrics-recording interface
(metrics::Recorder, not under src/) with six operations. The three
attribute-setting operations take a bare key name and an attribute object and
return only the updated state; the three register operations take a full key
and return the updated state together with an opaque handle. -/
structure Recorder (σ C G H A : Type) where
  set_counter_attribute : σ → KeyName → A → σ
  set_gauge_attribute : σ → KeyName → A → σ
  set_histogram_attribute : σ → KeyName → A → σ
  register_counter : σ → Key → σ × C
  register_gauge : σ → Key → σ × G
  register_histogram : σ → Key → σ × H

/-- struct Prefix<R>: the decorator holds the prefix text (a SharedString,
modelled as String) and the inner recorder. -/
structure Prefix (R : Type) where
  prefixStr : String
  inner : R

/-- Prefix::prefix_key: build a new name from the prefix, a single separator
character and the original name, and keep the original labels
(Key::from_parts(new_name, key.labels())). -/
def Prefix.prefix_key {R : Type} (p : Prefix R) (key : Key) : Key :=
  Key.from_parts (p.prefixStr ++ "." ++ key.name) key.labels

/-- Prefix::prefix_key_name: build the new name from the prefix, a single
separator character and the original key name. -/
def Prefix.prefix_key_name {R : Type} (p : Prefix R) (key_name : KeyName) : KeyName :=
  p.prefixStr ++ "." ++ key_name

/-- impl<R: Recorder> Recorder for Prefix<R>: each attribute-setting operation
forwards the rewritten key name and the unmodified attribute object to the
inner recorder; each register operation forwards the rewritten key and returns
the inner recorder's result unchanged. -/
def Prefix.toRecorder {σ C G H A : Type} (p : Prefix (Recorder σ C G H A)) :
    Recorder σ C G H A where
  set_counter_attribute := fun s key attr =>
    p.inner.set_counter_attribute s (p.prefix_key_name key) attr
  set_gauge_attribute := fun s key attr =>
    p.inner.set_gauge_attribute s (p.prefix_key_name key) attr
  set_histogram_attribute := fun s key attr =>
    p.inner.set_histogram_attribute s (p.prefix_key_name key) attr
  register_counter := fun s key => p.inner.register_counter s (p.prefix_key key)
  register_gauge := fun s key => p.inner.register_gauge s (p.prefix_key key)
  register_histogram := fun s key => p.inner.register_histogram s (p.prefix_key key)

/-- struct PrefixLayer(&'static str): the layer factory holds the prefix
text. The leaked allocation in the source only extends the lifetime of the
text; its value is the stored field. -/
structure PrefixLayer where
  val : String

/-- PrefixLayer::new: stores the given prefix text unmodified, with no
validation. -/
def PrefixLayer.new (s : String) : PrefixLayer :=
  PrefixLayer.mk s

/-- impl<R> Layer<R> for PrefixLayer: wraps the given inner recorder in a
Prefix decorator carrying the stored prefix text. -/
def PrefixLayer.layer {R : Type} (l : PrefixLayer) (inner : R) : Prefix R :=
  { prefixStr := l.val, inner := inner }

/-- A no-op inner recorder: the attribute-setting operations leave the state
unchanged, the register operations leave the state unchanged and return the
given handles (as Counter::noop(), Gauge::noop(), Histogram::noop()). -/
def noopRecorder {σ C G H A : Type} (c : C) (g : G) (hg : H) : Recorder σ C G H A where
  set_counter_attribute := fun s _ _ => s
  set_gauge_attribute := fun s _ _ => s
  set_histogram_attribute := fun s _ _ => s
  register_counter := fun s _ => (s, c)
  register_gauge := fun s _ => (s, g)
  register_histogram := fun s _ => (s, hg)

/-- One observed call at the inner recorder, as in the mock of the source's
tests (test_util::RecorderOperation): the identifier the call arrived with,
plus the attribute object for the attribute-setting operations. -/
inductive RecorderOperation (A : Type) where
  | SetCounterAttribute (name : KeyName) (attr : A)
  | SetGaugeAttribute (name : KeyName) (attr : A)
  | SetHistogramAttribute (name : KeyName) (attr : A)
  | RegisterCounter (key : Key)
  | RegisterGauge (key : Key)
  | RegisterHistogram (key : Key)
deriving DecidableEq

/-- A mock inner recorder (as MockBasicRecorder in the source's tests): its
state is the list of operations it has received; every call appends the
observed operation and the register operations return the given handles. -/
def mockRecorder {C G H A : Type} (c : C) (g : G) (hg : H) :
    Recorder (List (RecorderOperation A)) C G H A where
  set_counter_attribute := fun s n a => s ++ [RecorderOperation.SetCounterAttribute n a]
  set_gauge_attribute := fun s n a => s ++ [RecorderOperation.SetGaugeAttribute n a]
  set_histogram_attribute := fun s n a => s ++ [RecorderOperation.SetHistogramAttribute n a]
  register_counter := fun s k => (s ++ [RecorderOperation.RegisterCounter k], c)
  register_gauge := fun s k => (s ++ [RecorderOperation.RegisterGauge k], g)
  register_histogram := fun s k => (s ++ [RecorderOperation.RegisterHistogram k], hg)

/-- Left cancellation of the common rewritten head: two names rewritten with
the same prefix and separator are equal only if the names are equal. -/
theorem append_sep_left_cancel (p a b : String) (h : p ++ "." ++ a = p ++ "." ++ b) :
    a = b := by
  have hd := congrArg String.data h
  simp [String.data_append] at hd
  exact String.ext hd

/-- C1: for every prefix P and every name N, the rewrite yields exactly
P ++ "." ++ N, both on the name-only path (prefix_key_name) and on the
full-key path (prefix_key, whose name field is the rewritten name). -/
theorem prefix_composition_law {R : Type} (p : Prefix R) (k : Key) (n : KeyName) :
    (p.prefix_key k).name = p.prefixStr ++ "." ++ k.name ∧
    p.prefix_key_name n = p.prefixStr ++ "." ++ n :=
  ⟨rfl, rfl⟩

/-- C2: each register operation of the decorator forwards to the inner
recorder the rewritten key, whose labels are exactly the original key's labels
and whose name is prefix ++ "." ++ original name. -/
theorem register_label_preservation {σ C G H A : Type}
    (inner : Recorder σ C G H A) (pfx : String) (s : σ) (k : Key) :
    (Prefix.mk pfx inner).toRecorder.register_counter s k =
      inner.register_counter s ((Prefix.mk pfx inner).prefix_key k) ∧
    (Prefix.mk pfx inner).toRecorder.register_gauge s k =
      inner.register_gauge s ((Prefix.mk pfx inner).prefix_key k) ∧
    (Prefix.mk pfx inner).toRecorder.register_histogram s k =
      inner.register_histogram s ((Prefix.mk pfx inner).prefix_key k) ∧
    ((Prefix.mk pfx inner).prefix_key k).labels = k.labels ∧
    ((Prefix.mk pfx inner).prefix_key k).name = pfx ++ "." ++ k.name :=
  ⟨rfl, rfl, rfl, rfl, rfl⟩

/-- C3: rewriting a name on the name-only path gives the same string as
building a key from that name alone, rewriting it on the full-key path, and
taking its name field. -/
theorem key_vs_key_name {R : Type} (p : Prefix R) (n : String) :
    p.prefix_key_name n = (p.prefix_key (Key.from_name n)).name :=
  rfl

/-- C4: the handle returned by each register operation of the decorator is
exactly the value the inner recorder returned for the rewritten key; no other
handle is constructed or substituted. -/
theorem pass_through_fidelity {σ C G H A : Type}
    (inner : Recorder σ C G H A) (pfx : String) (s : σ) (k : Key) :
    ((Prefix.mk pfx inner).toRecorder.register_counter s k).2 =
      (inner.register_counter s ((Prefix.mk pfx inner).prefix_key k)).2 ∧
    ((Prefix.mk pfx inner).toRecorder.register_gauge s k).2 =
      (inner.register_gauge s ((Prefix.mk pfx inner).prefix_key k)).2 ∧
    ((Prefix.mk pfx inner).toRecorder.register_histogram s k).2 =
      (inner.register_histogram s ((Prefix.mk pfx inner).prefix_key k)).2 :=
  ⟨rfl, rfl, rfl⟩

/-- C5: each attribute-setting operation forwards the rewritten name
prefix ++ "." ++ name together with the unmodified attribute object; in the
concrete scenario with prefix "testing", registerCounter(Key("counter_key"))
arrives at the inner recorder as registerCounter(Key("testing.counter_key"))
and setGaugeAttribute("gauge_key", Description("gauge desc")) arrives as
setGaugeAttribute("testing.gauge_key", Description("gauge desc")). -/
theorem attribute_forwarding {σ C G H A : Type}
    (inner : Recorder σ C G H A) (pfx : String) (s : σ) (n : KeyName) (a : A) :
    ((Prefix.mk pfx inner).toRecorder.set_counter_attribute s n a =
      inner.set_counter_attribute s (pfx ++ "." ++ n) a ∧
    (Prefix.mk pfx inner).toRecorder.set_gauge_attribute s n a =
      inner.set_gauge_attribute s (pfx ++ "." ++ n) a ∧
    (Prefix.mk pfx inner).toRecorder.set_histogram_attribute s n a =
      inner.set_histogram_attribute s (pfx ++ "." ++ n) a) ∧
    ((Prefix.mk "testing"
        (mockRecorder () () () : Recorder (List (RecorderOperation String)) Unit Unit Unit String)
        ).toRecorder.register_counter [] (Key.from_name "counter_key")).1 =
      [RecorderOperation.RegisterCounter (Key.from_parts "testing.counter_key" [])] ∧
    (Prefix.mk "testing"
        (mockRecorder () () () : Recorder (List (RecorderOperation String)) Unit Unit Unit String)
        ).toRecorder.set_gauge_attribute [] "gauge_key" "gauge desc" =
      [RecorderOperation.SetGaugeAttribute "testing.gauge_key" "gauge desc"] :=
  ⟨⟨rfl, rfl, rfl⟩, by decide, by decide⟩

/-- C6: an empty prefix yields the rewritten name "." ++ N, and an empty
original name yields P ++ "."; the separator is inserted unconditionally on
both paths. -/
theorem empty_edge_cases {R S : Type} (p : Prefix R) (inner0 : S) (n : KeyName) :
    (Prefix.mk "" inner0).prefix_key_name n = "." ++ n ∧
    p.prefix_key_name "" = p.prefixStr ++ "." ∧
    ((Prefix.mk "" inner0).prefix_key (Key.from_name n)).name = "." ++ n ∧
    (p.prefix_key (Key.from_name "")).name = p.prefixStr ++ "." := by
  refine ⟨?_, ?_, ?_, ?_⟩ <;> simp [Prefix.prefix_key_name, Prefix.prefix_key,
    Key.from_name, Key.from_parts]

/-- C7: PrefixLayer::new stores any text as prefix unmodified (no validation,
including the empty string and text containing the separator), and each call
to layer returns a fresh Prefix decorator wrapping the given inner recorder
with a prefix equal to the stored one, for possibly different inner
recorders. -/
theorem layer_contract (s : String) (l : PrefixLayer) {R1 R2 : Type} (i1 : R1) (i2 : R2) :
    (PrefixLayer.new s).val = s ∧
    (PrefixLayer.new "").val = "" ∧
    (PrefixLayer.new "a.b.").val = "a.b." ∧
    (l.layer i1).prefixStr = l.val ∧ (l.layer i1).inner = i1 ∧
    (l.layer i2).prefixStr = l.val ∧ (l.layer i2).inner = i2 :=
  ⟨rfl, rfl, rfl, rfl, rfl, rfl, rfl⟩

/-- C8: identifier rewriting is total: prefix_key and prefix_key_name are
functions defined for every prefix and every text input, with the expected
name and labels; and with a no-op inner recorder every one of the six
decorator operations returns, leaving the state unchanged and returning the
no-op handles. -/
theorem total_noop_safety {σ C G H A : Type} (c : C) (g : G) (hg : H)
    (pfx : String) (s : σ) (k : Key) (n : KeyName) (a : A) :
    ((Prefix.mk pfx (noopRecorder c g hg : Recorder σ C G H A)).prefix_key k).name =
      pfx ++ "." ++ k.name ∧
    ((Prefix.mk pfx (noopRecorder c g hg : Recorder σ C G H A)).prefix_key k).labels =
      k.labels ∧
    (Prefix.mk pfx (noopRecorder c g hg : Recorder σ C G H A)).prefix_key_name n =
      pfx ++ "." ++ n ∧
    (Prefix.mk pfx (noopRecorder c g hg : Recorder σ C G H A)).toRecorder.set_counter_attribute
      s n a = s ∧
    (Prefix.mk pfx (noopRecorder c g hg : Recorder σ C G H A)).toRecorder.set_gauge_attribute
      s n a = s ∧
    (Prefix.mk pfx (noopRecorder c g hg : Recorder σ C G H A)).toRecorder.set_histogram_attribute
      s n a = s ∧
    (Prefix.mk pfx (noopRecorder c g hg : Recorder σ C G H A)).toRecorder.register_counter
      s k = (s, c) ∧
    (Prefix.mk pfx (noopRecorder c g hg : Recorder σ C G H A)).toRecorder.register_gauge
      s k = (s, g) ∧
    (Prefix.mk pfx (noopRecorder c g hg : Recorder σ C G H A)).toRecorder.register_histogram
      s k = (s, hg) :=
  ⟨rfl, rfl, rfl, rfl, rfl, rfl, rfl, rfl, rfl⟩

/-- C9: the rewrite is pure and deterministic: two decorators holding equal
prefix texts, even over different inner recorders, rewrite equal input keys
and equal input names to equal outputs; the result depends only on the prefix
and the input identifier. -/
theorem rewrite_deterministic {R1 R2 : Type} (p1 : Prefix R1) (p2 : Prefix R2)
    (k : Key) (n : KeyName) (hps : p1.prefixStr = p2.prefixStr) :
    p1.prefix_key k = p2.prefix_key k ∧ p1.prefix_key_name n = p2.prefix_key_name n := by
  unfold Prefix.prefix_key Prefix.prefix_key_name
  rw [hps]
  exact ⟨rfl, rfl⟩

/-- Witness for C9: two decorators with prefix "app" over distinct inner
recorder types rewrite the same key and the same name identically. -/
theorem rewrite_deterministic_witness :
    (Prefix.mk "app" () : Prefix Unit).prefix_key (Key.from_parts "reqs" [("m", "v")]) =
      (Prefix.mk "app" 7 : Prefix Nat).prefix_key (Key.from_parts "reqs" [("m", "v")]) ∧
    (Prefix.mk "app" () : Prefix Unit).prefix_key_name "latency" =
      (Prefix.mk "app" 7 : Prefix Nat).prefix_key_name "latency" :=
  rewrite_deterministic (Prefix.mk "app" ()) (Prefix.mk "app" 7)
    (Key.from_parts "reqs" [("m", "v")]) "latency" rfl

/-- C10: for a fixed prefix the rewrite is injective, on names via the
name-only path and on full keys via the full-key path: equal rewritten
outputs force equal original inputs, with no precondition on the prefix. -/
theorem prefix_rewrite_injective {R : Type} (p : Prefix R) (n1 n2 : String) (k1 k2 : Key)
    (hn : p.prefix_key_name n1 = p.prefix_key_name n2)
    (hk : p.prefix_key k1 = p.prefix_key k2) : n1 = n2 ∧ k1 = k2 := by
  refine ⟨append_sep_left_cancel _ _ _ hn, ?_⟩
  cases k1 with
  | mk name1 labels1 =>
    cases k2 with
    | mk name2 labels2 =>
      simp only [Prefix.prefix_key, Key.from_parts, Key.mk.injEq] at hk ⊢
      exact ⟨append_sep_left_cancel _ _ _ hk.1, hk.2⟩

/-- Witness for C10: with prefix "p", equal rewritten outputs at concrete
inputs yield the expected equalities of the original name and key. -/
theorem prefix_rewrite_injective_witness :
    ("reqs" : String) = "reqs" ∧ Key.from_parts "lat" [("m", "v")] = Key.from_parts "lat" [("m", "v")] :=
  prefix_rewrite_injective (Prefix.mk "p" ()) "reqs" "reqs"
    (Key.from_parts "lat" [("m", "v")]) (Key.from_parts "lat" [("m", "v")])
    (by decide) (by decide)
